import Mathlib

/-!
Verification of `odoorpc/service/db.py`: the `DB` database-management service.

The embedding models:
* the standard base64 codec used by `dump`/`restore`
  (Python's `base64.standard_b64encode` / `base64.standard_b64decode`);
* JSON-RPC values, payloads and responses;
* the transport collaborator `odoo.json(path, payload)` as a function;
* the `DB` class with explicit state passing: each method returns the
  object state after the call, the list of transport calls it made, and
  its outcome (a normal return value or a raised error).
-/

/-- Bytes are modelled as natural numbers; a well-formed byte is `< 256`. -/
def isByteString (x : List Nat) : Prop := ∀ b ∈ x, b < 256

instance (x : List Nat) : Decidable (isByteString x) := by
  unfold isByteString; infer_instance

/-- Character `n` of the standard base64 alphabet
(`A`-`Z`, `a`-`z`, `0`-`9`, `+`, `/`), for a sextet `n < 64`. -/
def b64chr (n : Nat) : Char :=
  if n < 26 then Char.ofNat (65 + n)
  else if n < 52 then Char.ofNat (97 + (n - 26))
  else if n < 62 then Char.ofNat (48 + (n - 52))
  else if n = 62 then Char.ofNat 43
  else Char.ofNat 47

/-- Inverse lookup in the standard base64 alphabet: the sextet encoded by
character `c`, or `none` if `c` is not an alphabet character. -/
def b64dec (c : Char) : Option Nat :=
  let n := c.toNat
  if 65 ≤ n ∧ n ≤ 90 then some (n - 65)
  else if 97 ≤ n ∧ n ≤ 122 then some (n - 97 + 26)
  else if 48 ≤ n ∧ n ≤ 57 then some (n - 48 + 52)
  else if n = 43 then some 62
  else if n = 47 then some 63
  else none

/-- The padding character `=` (ASCII 61). -/
def b64pad : Char := Char.ofNat 61

/-- Standard base64 encoding of a byte list, three bytes to four characters,
with `=` padding on a final group of one or two bytes. -/
def b64encodeList : List Nat → List Char
  | [] => []
  | [a] => [b64chr (a / 4), b64chr (a % 4 * 16), b64pad, b64pad]
  | [a, b] => [b64chr (a / 4), b64chr (a % 4 * 16 + b / 16), b64chr (b % 16 * 4), b64pad]
  | a :: b :: c :: rest =>
      b64chr (a / 4) :: b64chr (a % 4 * 16 + b / 16) :: b64chr (b % 16 * 4 + c / 64)
        :: b64chr (c % 64) :: b64encodeList rest

/-- Standard base64 decoding of a character list: four-character blocks, the
last one possibly padded with `=`; `none` on malformed input (as Python's
decoder raises `binascii.Error`). -/
def b64decodeList : List Char → Option (List Nat)
  | [] => some []
  | c1 :: c2 :: c3 :: c4 :: rest =>
      if c3 = b64pad then
        if c4 = b64pad ∧ rest = [] then
          match b64dec c1, b64dec c2 with
          | some s1, some s2 => some [s1 * 4 + s2 / 16]
          | _, _ => none
        else none
      else if c4 = b64pad then
        if rest = [] then
          match b64dec c1, b64dec c2, b64dec c3 with
          | some s1, some s2, some s3 => some [s1 * 4 + s2 / 16, s2 % 16 * 16 + s3 / 4]
          | _, _, _ => none
        else none
      else
        match b64dec c1, b64dec c2, b64dec c3, b64dec c4, b64decodeList rest with
        | some s1, some s2, some s3, some s4, some tail =>
            some ((s1 * 4 + s2 / 16) :: (s2 % 16 * 16 + s3 / 4) :: (s3 % 4 * 64 + s4) :: tail)
        | _, _, _, _, _ => none
  | _ => none

/-- Model of `base64.standard_b64encode(x).decode()`: encode a byte list and
view the result as a string. -/
def standard_b64encode (x : List Nat) : String := ⟨b64encodeList x⟩

/-- Model of `base64.standard_b64decode(s)` on a string argument. -/
def standard_b64decode (s : String) : Option (List Nat) := b64decodeList s.data

/-- JSON values appearing in the payloads and responses of this service:
strings, booleans and (possibly nested) arrays. -/
inductive Value where
  | str (s : String)
  | bool (b : Bool)
  | list (vs : List Value)

/-- The JSON-RPC payload shape `{service, method, args}` sent by every
method of `DB`. -/
structure Payload where
  service : String
  method : String
  args : List Value

/-- One call to the transport collaborator: `odoo.json(path, payload)`. -/
structure RpcCall where
  path : String
  payload : Payload

/-- The transport's response dictionary, reduced to its `result` key:
`none` models the absence of the key. -/
structure Response where
  result : Option Value

/-- The transport collaborator `odoo.json`: either a response, or a raised
error (an `odoorpc.error.RPCError` or a connection error), carried as an
opaque description. -/
def Transport : Type := RpcCall → Except String Response

/-- Errors a `DB` method can raise. -/
inductive DBError where
  /-- `odoorpc.error.InternalError`. -/
  | internalError (msg : String)
  /-- Python `KeyError` from a dictionary lookup `data[key]`. -/
  | keyError (key : String)
  /-- `binascii.Error` from decoding an invalid base64 string. -/
  | valueError (msg : String)
  /-- Python `TypeError` (e.g. base64-decoding a non-string). -/
  | typeError (msg : String)
  /-- An error raised by the transport, propagated unchanged. -/
  | transportError (e : String)

/-- A byte source such as an open file or an `io.BytesIO` buffer: the
`closed` flag and the bytes that a full `read()` returns. -/
structure ByteSource where
  closed : Bool
  content : List Nat

/-- The `DB` class: its only attribute is the caller-supplied transport
handle `self._odoo` set by `__init__`. -/
structure DB where
  _odoo : Transport

/-- What one method invocation produces: the object state after the call,
the transport calls made during the call, and the outcome (a normal
return value, or the error raised). -/
structure Outcome (α : Type) where
  self : DB
  calls : List RpcCall
  result : Except DBError α

/-- The payload of `DB.dump`. -/
def dumpCall (password db : String) : RpcCall :=
  ⟨"/jsonrpc", ⟨"db", "dump", [.str password, .str db]⟩⟩

/-- Embedding of `DB.dump`: send the dump request, base64-decode
`data['result']`, and return it as an open in-memory byte buffer
(`io.BytesIO`). -/
def DB.dump (self : DB) (password db : String) : Outcome ByteSource :=
  match self._odoo (dumpCall password db) with
  | .error e => ⟨self, [dumpCall password db], .error (.transportError e)⟩
  | .ok data =>
      match data.result with
      | none => ⟨self, [dumpCall password db], .error (.keyError "result")⟩
      | some (.str s) =>
          match standard_b64decode s with
          | none => ⟨self, [dumpCall password db],
              .error (.valueError "Invalid base64-encoded string")⟩
          | some binary_data => ⟨self, [dumpCall password db], .ok ⟨false, binary_data⟩⟩
      | some _ => ⟨self, [dumpCall password db],
          .error (.typeError "argument should be a bytes-like object or ASCII string")⟩

/-- The payload of `DB.change_password`. -/
def changePasswordCall (password new_password : String) : RpcCall :=
  ⟨"/jsonrpc", ⟨"db", "change_admin_password", [.str password, .str new_password]⟩⟩

/-- Embedding of `DB.change_password`. -/
def DB.change_password (self : DB) (password new_password : String) : Outcome Unit :=
  match self._odoo (changePasswordCall password new_password) with
  | .error e => ⟨self, [changePasswordCall password new_password], .error (.transportError e)⟩
  | .ok _ => ⟨self, [changePasswordCall password new_password], .ok ()⟩

/-- The payload of `DB.create`. -/
def createCall (password db : String) (demo : Bool) (lang admin_password : String) : RpcCall :=
  ⟨"/jsonrpc", ⟨"db", "create_database",
    [.str password, .str db, .bool demo, .str lang, .str admin_password]⟩⟩

/-- Embedding of `DB.create`, with the source's default arguments
`demo=False`, `lang='en_US'`, `admin_password='admin'`. -/
def DB.create (self : DB) (password db : String) (demo : Bool := false)
    (lang : String := "en_US") (admin_password : String := "admin") : Outcome Unit :=
  match self._odoo (createCall password db demo lang admin_password) with
  | .error e => ⟨self, [createCall password db demo lang admin_password],
      .error (.transportError e)⟩
  | .ok _ => ⟨self, [createCall password db demo lang admin_password], .ok ()⟩

/-- The payload of `DB.drop`. -/
def dropCall (password db : String) : RpcCall :=
  ⟨"/jsonrpc", ⟨"db", "drop", [.str password, .str db]⟩⟩

/-- Embedding of `DB.drop`: returns `data['result']` unchanged. -/
def DB.drop (self : DB) (password db : String) : Outcome Value :=
  match self._odoo (dropCall password db) with
  | .error e => ⟨self, [dropCall password db], .error (.transportError e)⟩
  | .ok data =>
      match data.result with
      | none => ⟨self, [dropCall password db], .error (.keyError "result")⟩
      | some v => ⟨self, [dropCall password db], .ok v⟩

/-- The payload of `DB.duplicate`. -/
def duplicateCall (password db new_db : String) : RpcCall :=
  ⟨"/jsonrpc", ⟨"db", "duplicate_database", [.str password, .str db, .str new_db]⟩⟩

/-- Embedding of `DB.duplicate`. -/
def DB.duplicate (self : DB) (password db new_db : String) : Outcome Unit :=
  match self._odoo (duplicateCall password db new_db) with
  | .error e => ⟨self, [duplicateCall password db new_db], .error (.transportError e)⟩
  | .ok _ => ⟨self, [duplicateCall password db new_db], .ok ()⟩

/-- The payload of `DB.list`. -/
def listCall : RpcCall := ⟨"/jsonrpc", ⟨"db", "list", []⟩⟩

/-- Embedding of `DB.list`: returns `data.get('result', [])`. -/
def DB.list (self : DB) : Outcome Value :=
  match self._odoo listCall with
  | .error e => ⟨self, [listCall], .error (.transportError e)⟩
  | .ok data => ⟨self, [listCall], .ok (data.result.getD (.list []))⟩

/-- The payload of `DB.restore`. -/
def restoreCall (password db b64_data : String) (copy : Bool) : RpcCall :=
  ⟨"/jsonrpc", ⟨"db", "restore", [.str password, .str db, .str b64_data, .bool copy]⟩⟩

/-- Embedding of `DB.restore`: raise `InternalError` if the dump source is
closed, otherwise read it all, base64-encode it and send it, with the
source's default argument `copy=False`. -/
def DB.restore (self : DB) (password db : String) (dump : ByteSource)
    (copy : Bool := false) : Outcome Unit :=
  if dump.closed then ⟨self, [], .error (.internalError "Dump file closed")⟩
  else
    let b64_data := standard_b64encode dump.content
    match self._odoo (restoreCall password db b64_data copy) with
    | .error e => ⟨self, [restoreCall password db b64_data copy], .error (.transportError e)⟩
    | .ok _ => ⟨self, [restoreCall password db b64_data copy], .ok ()⟩

/-- Property of one transport call: its path is `/jsonrpc`, its payload's
service is `db` and its method is `m`. -/
def wellFormedCall (m : String) (c : RpcCall) : Bool :=
  c.path == "/jsonrpc" && c.payload.service == "db" && c.payload.method == m

/-- A transport whose response has no `result` key. -/
def Tnone : Transport := fun _ => .ok ⟨none⟩

/-- A transport answering a list of two database names. -/
def Tlist : Transport := fun _ => .ok ⟨some (.list [.str "prod", .str "test"])⟩

/-- A transport answering the boolean `true`. -/
def Tbool : Transport := fun _ => .ok ⟨some (.bool true)⟩

/-- A transport answering the base64 encoding of the bytes `[77, 97, 255]`. -/
def Tdump : Transport := fun _ => .ok ⟨some (.str (standard_b64encode [77, 97, 255]))⟩

/-- A transport that always fails with a connection error. -/
def Tfail : Transport := fun _ => .error "URLError: connection refused"

theorem dump_self_calls (s : DB) (password db : String) :
    (DB.dump s password db).self = s ∧ (DB.dump s password db).calls = [dumpCall password db] := by
  unfold DB.dump
  repeat' split
  all_goals exact ⟨rfl, rfl⟩

theorem change_password_self_calls (s : DB) (password new_password : String) :
    (DB.change_password s password new_password).self = s ∧
    (DB.change_password s password new_password).calls =
      [changePasswordCall password new_password] := by
  unfold DB.change_password
  cases s._odoo (changePasswordCall password new_password) <;> exact ⟨rfl, rfl⟩

theorem create_self_calls (s : DB) (password db : String) (demo : Bool)
    (lang admin_password : String) :
    (DB.create s password db demo lang admin_password).self = s ∧
    (DB.create s password db demo lang admin_password).calls =
      [createCall password db demo lang admin_password] := by
  unfold DB.create
  cases s._odoo (createCall password db demo lang admin_password) <;> exact ⟨rfl, rfl⟩

theorem drop_self_calls (s : DB) (password db : String) :
    (DB.drop s password db).self = s ∧ (DB.drop s password db).calls = [dropCall password db] := by
  unfold DB.drop
  cases s._odoo (dropCall password db) with
  | error e => exact ⟨rfl, rfl⟩
  | ok data =>
      obtain ⟨r⟩ := data
      cases r <;> exact ⟨rfl, rfl⟩

theorem duplicate_self_calls (s : DB) (password db new_db : String) :
    (DB.duplicate s password db new_db).self = s ∧
    (DB.duplicate s password db new_db).calls = [duplicateCall password db new_db] := by
  unfold DB.duplicate
  cases s._odoo (duplicateCall password db new_db) <;> exact ⟨rfl, rfl⟩

theorem list_self_calls (s : DB) :
    (DB.list s).self = s ∧ (DB.list s).calls = [listCall] := by
  unfold DB.list
  cases s._odoo listCall <;> exact ⟨rfl, rfl⟩

theorem restore_self (s : DB) (password db : String) (dump : ByteSource) (copy : Bool) :
    (DB.restore s password db dump copy).self = s := by
  unfold DB.restore
  cases h : dump.closed with
  | true => rfl
  | false =>
      simp only [Bool.false_eq_true, if_false]
      cases s._odoo (restoreCall password db (standard_b64encode dump.content) copy) <;> rfl

theorem restore_calls_open (s : DB) (password db : String) (dump : ByteSource) (copy : Bool)
    (h : dump.closed = false) :
    (DB.restore s password db dump copy).calls =
      [restoreCall password db (standard_b64encode dump.content) copy] := by
  unfold DB.restore
  rw [h]
  simp only [Bool.false_eq_true, if_false]
  cases s._odoo (restoreCall password db (standard_b64encode dump.content) copy) <;> rfl

theorem restore_closed_eq (s : DB) (password db : String) (dump : ByteSource) (copy : Bool)
    (h : dump.closed = true) :
    DB.restore s password db dump copy =
      ⟨s, [], .error (.internalError "Dump file closed")⟩ := by
  unfold DB.restore
  rw [h]
  rfl

theorem dump_propagates (s : DB) (password db : String) (e : String)
    (h : s._odoo (dumpCall password db) = .error e) :
    (DB.dump s password db).result = .error (.transportError e) := by
  unfold DB.dump; rw [h]

theorem change_password_propagates (s : DB) (password new_password : String) (e : String)
    (h : s._odoo (changePasswordCall password new_password) = .error e) :
    (DB.change_password s password new_password).result = .error (.transportError e) := by
  unfold DB.change_password; rw [h]

theorem create_propagates (s : DB) (password db : String) (demo : Bool)
    (lang admin_password : String) (e : String)
    (h : s._odoo (createCall password db demo lang admin_password) = .error e) :
    (DB.create s password db demo lang admin_password).result =
      .error (.transportError e) := by
  unfold DB.create; rw [h]

theorem drop_propagates (s : DB) (password db : String) (e : String)
    (h : s._odoo (dropCall password db) = .error e) :
    (DB.drop s password db).result = .error (.transportError e) := by
  unfold DB.drop; rw [h]

theorem duplicate_propagates (s : DB) (password db new_db : String) (e : String)
    (h : s._odoo (duplicateCall password db new_db) = .error e) :
    (DB.duplicate s password db new_db).result = .error (.transportError e) := by
  unfold DB.duplicate; rw [h]

theorem list_propagates (s : DB) (e : String)
    (h : s._odoo listCall = .error e) :
    (DB.list s).result = .error (.transportError e) := by
  unfold DB.list; rw [h]

theorem restore_propagates (s : DB) (password db : String) (dump : ByteSource) (copy : Bool)
    (e : String) (hopen : dump.closed = false)
    (h : s._odoo (restoreCall password db (standard_b64encode dump.content) copy) = .error e) :
    (DB.restore s password db dump copy).result = .error (.transportError e) := by
  unfold DB.restore
  rw [hopen]
  simp only [Bool.false_eq_true, if_false]
  rw [h]

theorem b64dec_b64chr : ∀ n : Fin 64, b64dec (b64chr n.val) = some n.val := by decide

theorem b64chr_ne_pad : ∀ n : Fin 64, b64chr n.val ≠ b64pad := by decide

theorem b64dec_chr {n : Nat} (h : n < 64) : b64dec (b64chr n) = some n :=
  b64dec_b64chr ⟨n, h⟩

theorem b64chr_ne_pad_of_lt {n : Nat} (h : n < 64) : b64chr n ≠ b64pad :=
  b64chr_ne_pad ⟨n, h⟩

/-- Decoding is a left inverse of encoding on well-formed byte lists. -/
theorem b64decodeList_encodeList : ∀ (x : List Nat), isByteString x →
    b64decodeList (b64encodeList x) = some x
  | [], _ => rfl
  | [a], h => by
      have ha : a < 256 := h a (by simp)
      simp only [b64encodeList, b64decodeList]
      rw [b64dec_chr (by omega), b64dec_chr (by omega)]
      simp
      all_goals omega
  | [a, b], h => by
      have ha : a < 256 := h a (by simp)
      have hb : b < 256 := h b (by simp)
      simp only [b64encodeList, b64decodeList]
      rw [if_neg (b64chr_ne_pad_of_lt (by omega))]
      rw [b64dec_chr (by omega), b64dec_chr (by omega), b64dec_chr (by omega)]
      simp
      all_goals omega
  | a :: b :: c :: rest, h => by
      have ha : a < 256 := h a (by simp)
      have hb : b < 256 := h b (by simp)
      have hc : c < 256 := h c (by simp)
      have ih : b64decodeList (b64encodeList rest) = some rest :=
        b64decodeList_encodeList rest (fun y hy => h y (by simp [hy]))
      simp only [b64encodeList, b64decodeList]
      rw [if_neg (b64chr_ne_pad_of_lt (by omega)), if_neg (b64chr_ne_pad_of_lt (by omega))]
      rw [b64dec_chr (by omega), b64dec_chr (by omega), b64dec_chr (by omega),
        b64dec_chr (by omega)]
      rw [ih]
      simp
      all_goals omega

/-- Decoding is a left inverse of encoding, at the string level. -/
theorem standard_b64decode_encode (x : List Nat) (h : isByteString x) :
    standard_b64decode (standard_b64encode x) = some x :=
  b64decodeList_encodeList x h

/-- C1: for every open (not closed) byte source `d`, `restore(password, db,
d, copy)` reads the full content of `d`, base64-encodes it, and makes
exactly one transport call whose payload has `args` equal to the
four-element list `[password, db, b64_data, copy]` in that order, where
`b64_data` is the base64 encoding of the content of `d`. -/
theorem restore_open_encodes_and_sends (s : DB) (password db : String) (d : ByteSource)
    (copy : Bool) (h : d.closed = false) :
    (DB.restore s password db d copy).calls =
      [⟨"/jsonrpc", ⟨"db", "restore",
        [.str password, .str db, .str (standard_b64encode d.content), .bool copy]⟩⟩] :=
  restore_calls_open s password db d copy h

/-- Witness for C1 at a concrete open byte source and transport. -/
theorem restore_open_encodes_and_sends_witness :
    (DB.restore ⟨Tnone⟩ "super_admin_passwd" "test" ⟨false, [77, 97]⟩ true).calls =
      [⟨"/jsonrpc", ⟨"db", "restore",
        [.str "super_admin_passwd", .str "test",
          .str (standard_b64encode [77, 97]), .bool true]⟩⟩] :=
  restore_open_encodes_and_sends ⟨Tnone⟩ "super_admin_passwd" "test" ⟨false, [77, 97]⟩ true rfl

/-- C2: for every already-closed byte source `d` and any password, db and
copy arguments, `restore(password, db, d, copy)` raises
`odoorpc.error.InternalError` and makes no transport call. -/
theorem restore_closed_raises (s : DB) (password db : String) (d : ByteSource)
    (copy : Bool) (h : d.closed = true) :
    (DB.restore s password db d copy).calls = [] ∧
    (DB.restore s password db d copy).result =
      .error (.internalError "Dump file closed") := by
  rw [restore_closed_eq s password db d copy h]
  exact ⟨rfl, rfl⟩

/-- Witness for C2 at a concrete closed byte source. -/
theorem restore_closed_raises_witness :
    (DB.restore ⟨Tnone⟩ "super_admin_passwd" "test" ⟨true, [77, 97]⟩ false).calls = [] ∧
    (DB.restore ⟨Tnone⟩ "super_admin_passwd" "test" ⟨true, [77, 97]⟩ false).result =
      .error (.internalError "Dump file closed") :=
  restore_closed_raises ⟨Tnone⟩ "super_admin_passwd" "test" ⟨true, [77, 97]⟩ false rfl

/-- C3: for every byte string `x`, if the transport's response to the dump
request carries `result` equal to the base64 encoding of `x`, then
`dump(password, db)` returns an open in-memory byte buffer whose content
equals `x`. -/
theorem dump_returns_decoded (s : DB) (password db : String) (x : List Nat)
    (hx : isByteString x)
    (hT : s._odoo (dumpCall password db) = .ok ⟨some (.str (standard_b64encode x))⟩) :
    (DB.dump s password db).result = .ok ⟨false, x⟩ := by
  unfold DB.dump
  rw [hT]
  simp only [standard_b64decode_encode x hx]

/-- Witness for C3 at a concrete byte string and transport. -/
theorem dump_returns_decoded_witness :
    (DB.dump ⟨Tdump⟩ "super_admin_passwd" "prod").result = .ok ⟨false, [77, 97, 255]⟩ :=
  dump_returns_decoded ⟨Tdump⟩ "super_admin_passwd" "prod" [77, 97, 255] (by decide) rfl

/-- C4: for every method of `DB` and all argument values, every payload sent
to the transport has path `/jsonrpc`, service `db` and the documented RPC
method name: `list`, `create_database`, `drop`, `duplicate_database`,
`change_admin_password`, `dump`, `restore`. -/
theorem db_payload_wellformed (s : DB)
    (password db new_db new_password lang admin_password : String)
    (demo copy : Bool) (d : ByteSource) :
    (DB.list s).calls.all (wellFormedCall "list") = true ∧
    (DB.create s password db demo lang admin_password).calls.all
      (wellFormedCall "create_database") = true ∧
    (DB.drop s password db).calls.all (wellFormedCall "drop") = true ∧
    (DB.duplicate s password db new_db).calls.all
      (wellFormedCall "duplicate_database") = true ∧
    (DB.change_password s password new_password).calls.all
      (wellFormedCall "change_admin_password") = true ∧
    (DB.dump s password db).calls.all (wellFormedCall "dump") = true ∧
    (DB.restore s password db d copy).calls.all (wellFormedCall "restore") = true := by
  refine ⟨?_, ?_, ?_, ?_, ?_, ?_, ?_⟩
  · rw [(list_self_calls s).2]; rfl
  · rw [(create_self_calls s password db demo lang admin_password).2]; rfl
  · rw [(drop_self_calls s password db).2]; rfl
  · rw [(duplicate_self_calls s password db new_db).2]; rfl
  · rw [(change_password_self_calls s password new_password).2]; rfl
  · rw [(dump_self_calls s password db).2]; rfl
  · cases h : d.closed with
    | true => rw [restore_closed_eq s password db d copy h]; rfl
    | false => rw [restore_calls_open s password db d copy h]; rfl

/-- C5: for every transport response, `list()` returns exactly the value
stored under the `result` field when that field is present, and returns the
empty sequence when the field is absent. -/
theorem list_returns_result_or_empty (s : DB) (v : Value) :
    (s._odoo listCall = .ok ⟨some v⟩ → (DB.list s).result = .ok v) ∧
    (s._odoo listCall = .ok ⟨none⟩ → (DB.list s).result = .ok (.list [])) := by
  constructor
  · intro h; unfold DB.list; rw [h]; rfl
  · intro h; unfold DB.list; rw [h]; rfl

/-- Witness for C5 at a transport carrying a `result` and one lacking it. -/
theorem list_returns_result_or_empty_witness :
    (DB.list ⟨Tlist⟩).result = .ok (.list [.str "prod", .str "test"]) ∧
    (DB.list ⟨Tnone⟩).result = .ok (.list []) :=
  ⟨(list_returns_result_or_empty ⟨Tlist⟩ (.list [.str "prod", .str "test"])).1 rfl,
   (list_returns_result_or_empty ⟨Tnone⟩ (.list [])).2 rfl⟩

/-- C6: for every transport response whose `result` field is a boolean `b`,
`drop(password, db)` returns exactly `b`, unchanged. -/
theorem drop_returns_bool (s : DB) (password db : String) (b : Bool)
    (hT : s._odoo (dropCall password db) = .ok ⟨some (.bool b)⟩) :
    (DB.drop s password db).result = .ok (.bool b) := by
  unfold DB.drop
  rw [hT]

/-- Witness for C6 at a transport answering the boolean `true`. -/
theorem drop_returns_bool_witness :
    (DB.drop ⟨Tbool⟩ "super_admin_passwd" "test").result = .ok (.bool true) :=
  drop_returns_bool ⟨Tbool⟩ "super_admin_passwd" "test" true rfl

/-- C7: every method of `DB` performs at most one transport call per
invocation, and a failure raised by the transport during that call
propagates to the caller unchanged. -/
theorem db_at_most_one_call_and_propagation (s : DB)
    (password db new_db new_password lang admin_password : String)
    (demo copy : Bool) (d : ByteSource) (e : String) :
    ((DB.list s).calls.length ≤ 1 ∧
      (s._odoo listCall = .error e →
        (DB.list s).result = .error (.transportError e))) ∧
    ((DB.create s password db demo lang admin_password).calls.length ≤ 1 ∧
      (s._odoo (createCall password db demo lang admin_password) = .error e →
        (DB.create s password db demo lang admin_password).result =
          .error (.transportError e))) ∧
    ((DB.drop s password db).calls.length ≤ 1 ∧
      (s._odoo (dropCall password db) = .error e →
        (DB.drop s password db).result = .error (.transportError e))) ∧
    ((DB.duplicate s password db new_db).calls.length ≤ 1 ∧
      (s._odoo (duplicateCall password db new_db) = .error e →
        (DB.duplicate s password db new_db).result = .error (.transportError e))) ∧
    ((DB.change_password s password new_password).calls.length ≤ 1 ∧
      (s._odoo (changePasswordCall password new_password) = .error e →
        (DB.change_password s password new_password).result =
          .error (.transportError e))) ∧
    ((DB.dump s password db).calls.length ≤ 1 ∧
      (s._odoo (dumpCall password db) = .error e →
        (DB.dump s password db).result = .error (.transportError e))) ∧
    ((DB.restore s password db d copy).calls.length ≤ 1 ∧
      (d.closed = false →
        s._odoo (restoreCall password db (standard_b64encode d.content) copy) = .error e →
        (DB.restore s password db d copy).result = .error (.transportError e))) := by
  refine ⟨⟨?_, list_propagates s e⟩,
    ⟨?_, create_propagates s password db demo lang admin_password e⟩,
    ⟨?_, drop_propagates s password db e⟩,
    ⟨?_, duplicate_propagates s password db new_db e⟩,
    ⟨?_, change_password_propagates s password new_password e⟩,
    ⟨?_, dump_propagates s password db e⟩,
    ⟨?_, fun hopen hf => restore_propagates s password db d copy e hopen hf⟩⟩
  · rw [(list_self_calls s).2]; simp
  · rw [(create_self_calls s password db demo lang admin_password).2]; simp
  · rw [(drop_self_calls s password db).2]; simp
  · rw [(duplicate_self_calls s password db new_db).2]; simp
  · rw [(change_password_self_calls s password new_password).2]; simp
  · rw [(dump_self_calls s password db).2]; simp
  · cases h : d.closed with
    | true => rw [restore_closed_eq s password db d copy h]; simp
    | false => rw [restore_calls_open s password db d copy h]; simp

/-- Witness for C7: a transport that always fails makes every method raise
the transport's error unchanged. -/
theorem db_at_most_one_call_and_propagation_witness :
    (DB.list ⟨Tfail⟩).result = .error (.transportError "URLError: connection refused") ∧
    (DB.create ⟨Tfail⟩ "p" "d" false "en_US" "admin").result =
      .error (.transportError "URLError: connection refused") ∧
    (DB.drop ⟨Tfail⟩ "p" "d").result =
      .error (.transportError "URLError: connection refused") ∧
    (DB.duplicate ⟨Tfail⟩ "p" "d" "n").result =
      .error (.transportError "URLError: connection refused") ∧
    (DB.change_password ⟨Tfail⟩ "p" "n").result =
      .error (.transportError "URLError: connection refused") ∧
    (DB.dump ⟨Tfail⟩ "p" "d").result =
      .error (.transportError "URLError: connection refused") ∧
    (DB.restore ⟨Tfail⟩ "p" "d" ⟨false, [0]⟩ false).result =
      .error (.transportError "URLError: connection refused") := by
  have h := db_at_most_one_call_and_propagation ⟨Tfail⟩ "p" "d" "n" "n" "en_US" "admin"
    false false ⟨false, [0]⟩ "URLError: connection refused"
  exact ⟨h.1.2 rfl, h.2.1.2 rfl, h.2.2.1.2 rfl, h.2.2.2.1.2 rfl,
    h.2.2.2.2.1.2 rfl, h.2.2.2.2.2.1.2 rfl, h.2.2.2.2.2.2.2 rfl rfl⟩

/-- C8: for every method of `DB` and all arguments, the object's own state
(its only attribute, the caller-supplied transport handle `_odoo`) is
unchanged by the call, whether the call returns normally or raises. -/
theorem db_state_unchanged (s : DB)
    (password db new_db new_password lang admin_password : String)
    (demo copy : Bool) (d : ByteSource) :
    (DB.list s).self = s ∧
    (DB.create s password db demo lang admin_password).self = s ∧
    (DB.drop s password db).self = s ∧
    (DB.duplicate s password db new_db).self = s ∧
    (DB.change_password s password new_password).self = s ∧
    (DB.dump s password db).self = s ∧
    (DB.restore s password db d copy).self = s :=
  ⟨(list_self_calls s).1,
   (create_self_calls s password db demo lang admin_password).1,
   (drop_self_calls s password db).1,
   (duplicate_self_calls s password db new_db).1,
   (change_password_self_calls s password new_password).1,
   (dump_self_calls s password db).1,
   restore_self s password db d copy⟩

/-- C9: for every transport response that lacks the `result` field, `drop`
and `dump` fail with a key-lookup error instead of returning a value,
whereas `list` returns the empty sequence. -/
theorem absent_result_outcomes (s : DB) (password db : String)
    (h1 : s._odoo (dropCall password db) = .ok ⟨none⟩)
    (h2 : s._odoo (dumpCall password db) = .ok ⟨none⟩)
    (h3 : s._odoo listCall = .ok ⟨none⟩) :
    (DB.drop s password db).result = .error (.keyError "result") ∧
    (DB.dump s password db).result = .error (.keyError "result") ∧
    (DB.list s).result = .ok (.list []) := by
  refine ⟨?_, ?_, ?_⟩
  · unfold DB.drop; rw [h1]
  · unfold DB.dump; rw [h2]
  · unfold DB.list; rw [h3]; rfl

/-- Witness for C9 at a transport whose responses have no `result` key. -/
theorem absent_result_outcomes_witness :
    (DB.drop ⟨Tnone⟩ "p" "d").result = .error (.keyError "result") ∧
    (DB.dump ⟨Tnone⟩ "p" "d").result = .error (.keyError "result") ∧
    (DB.list ⟨Tnone⟩).result = .ok (.list []) :=
  absent_result_outcomes ⟨Tnone⟩ "p" "d" rfl rfl rfl

/-- C10: for every password and db, calling `create(password, db)` with the
optional arguments omitted sends the payload args
`[password, db, False, 'en_US', 'admin']`. -/
theorem create_default_args (s : DB) (password db : String) :
    (DB.create s password db).calls =
      [⟨"/jsonrpc", ⟨"db", "create_database",
        [.str password, .str db, .bool false, .str "en_US", .str "admin"]⟩⟩] :=
  (create_self_calls s password db false "en_US" "admin").2
